import Mathlib

/-!
Verification development for the EKS containers-observability CDK application.

The definitions below are a shallow embedding of the Python source:

* `eks_platform/config/environment_config.py` — the configuration dataclasses
  and the two canned environment profiles;
* `app.py` — the mode-selector branch choosing between the profiles, and the
  construct-level dependency wiring between the platform constructs;
* `eks_platform/infrastructure/compute/auto_mode_lambda.py` — the
  compute-enablement custom-resource callback `on_event`;
* `eks_platform/infrastructure/compute/eks_cluster_stack.py`,
  `eks_platform/platform/monitoring/prometheus_construct.py`,
  `eks_platform/platform/monitoring/prometheus_adapter_construct.py`,
  `eks_platform/applications/workloads/*_construct.py` — the declared
  resources and the author-declared `add_dependency` edges between them;
* the compute-mode branching helpers `_get_pod_spec`, `_get_tolerations`
  and `_get_adapter_config`.

The dependency graph is modelled at the level the specification describes it:
nodes are the resources each construct declares, and edges are the
author-declared `add_dependency` calls, where a construct-level dependency
`X.node.add_dependency(Y)` is expanded to edges from every resource declared
by `X` to every resource declared by `Y`.  Implicit edges from every
cluster-attached resource to the cluster resource (the provisioning engine
infers them from the data references to the cluster) are also included.
Dependencies of a construct on its own ancestor stack
(`prometheus.node.add_dependency(eks_cluster_stack)` and the stack-to-stack
dependencies of `app.py`) are degenerate for intra-stack ordering and are
outside the modelled node set, so they are omitted.
-/

set_option maxRecDepth 100000
set_option maxHeartbeats 1000000

namespace EksObservability

/-! ## Configuration model (`environment_config.py`) -/

/-- `NetworkConfig` dataclass. -/
structure NetworkConfig where
  vpc_cidr : String := "10.0.0.0/16"
  max_azs : Nat := 2
  nat_gateways : Nat := 1
  enable_flow_logs : Bool := false
deriving DecidableEq, Repr

/-- `ComputeConfig` dataclass.  `mode` is a plain string in the source
("fargate" or "auto-mode"). -/
structure ComputeConfig where
  mode : String := "auto-mode"
  fargate_profiles : List String := ["default", "monitoring", "kube-system"]
  auto_mode_enabled : Bool := true
deriving DecidableEq, Repr

/-- `EksConfig` dataclass. -/
structure EksConfig where
  cluster_name : String
  version : String := "1.32"
  compute : ComputeConfig := {}
  admin_user_arn : Option String := none
  admin_role_arn : Option String := none
deriving DecidableEq, Repr

/-- `MonitoringConfig` dataclass.  The source field `namespace` is a Lean
keyword, so it is called `namespaceName` here. -/
structure MonitoringConfig where
  prometheus_enabled : Bool := true
  grafana_enabled : Bool := true
  retention_days : Nat := 30
  scrape_interval : String := "15s"
  namespaceName : String := "monitoring"
deriving DecidableEq, Repr

/-- `EnvironmentConfig` dataclass. -/
structure EnvironmentConfig where
  environment_name : String
  account : String
  region : String
  network : NetworkConfig
  eks : EksConfig
  monitoring : MonitoringConfig
deriving DecidableEq, Repr

namespace EnvironmentConfig

/-- `EnvironmentConfig.development` — the Auto Mode profile. -/
def development (account region : String) : EnvironmentConfig :=
  { environment_name := "dev"
    account := account
    region := region
    network := { nat_gateways := 1, enable_flow_logs := false }
    eks :=
      { cluster_name := "dev-eks-automode"
        version := "1.32"
        compute := { mode := "auto-mode", auto_mode_enabled := true }
        admin_user_arn := some "arn:aws:iam::123456789:user/user-cli" }
    monitoring :=
      { prometheus_enabled := true, grafana_enabled := true, retention_days := 7 } }

/-- `EnvironmentConfig.fargate_development` — the Fargate profile. -/
def fargate_development (account region : String) : EnvironmentConfig :=
  { environment_name := "dev-fargate"
    account := account
    region := region
    network := { nat_gateways := 1, enable_flow_logs := false }
    eks :=
      { cluster_name := "dev-eks-fargate"
        version := "1.32"
        compute :=
          { mode := "fargate"
            fargate_profiles := ["default", "monitoring", "opentelemetry", "kube-system"]
            auto_mode_enabled := false }
        admin_user_arn := some "arn:aws:iam::123456789:user/user-cli" }
    monitoring :=
      { prometheus_enabled := true, grafana_enabled := true, retention_days := 7 } }

end EnvironmentConfig

/-- The mode-selector branch of `app.py`:
`if compute_mode == "fargate": config = EnvironmentConfig.fargate_development(...)
 else: config = EnvironmentConfig.development(...)`. -/
def select_environment_config (compute_mode account region : String) : EnvironmentConfig :=
  if compute_mode = "fargate" then
    EnvironmentConfig.fargate_development account region
  else
    EnvironmentConfig.development account region

/-! ## Compute-enablement callback (`auto_mode_lambda.py`) -/

/-- Payload returned by `on_event` (the `PhysicalResourceId` and the `Data`
dictionary; `UpdateId` is absent in the delete-not-found case). -/
structure CallbackPayload where
  physicalResourceId : String
  status : String
  updateId : Option String
deriving DecidableEq, Repr

/-- Outcome of the `eks_client.update_cluster_config` provider call, which is
external to the callback: success with an update id, a `botocore`
`ClientError` carrying an error code, or any other exception. -/
inductive EksApiResult where
  | ok (updateId : String)
  | clientError (code : String)
  | otherError (msg : String)
deriving DecidableEq, Repr

/-- An error re-raised by the callback. -/
inductive RaisedError where
  | clientError (code : String)
  | otherError (msg : String)
deriving DecidableEq, Repr

/-- `on_event` from `auto_mode_lambda.py`.  The provider-call outcome is an
input; a Python `return` of a payload is `.ok (some p)`, the implicit
`return None` on an unrecognized request type (where the provider is never
called) is `.ok none`, and a `raise` is `.error`. -/
def on_event (request_type cluster_name : String) (api : EksApiResult) :
    Except RaisedError (Option CallbackPayload) :=
  if request_type = "Create" ∨ request_type = "Update" then
    match api with
    | .ok uid =>
        .ok (some { physicalResourceId := cluster_name ++ "-auto-mode"
                    status := "INITIATED"
                    updateId := some uid })
    | .clientError code => .error (.clientError code)
    | .otherError msg => .error (.otherError msg)
  else if request_type = "Delete" then
    match api with
    | .ok uid =>
        .ok (some { physicalResourceId := cluster_name ++ "-auto-mode"
                    status := "DISABLED"
                    updateId := some uid })
    | .clientError code =>
        if code = "ResourceNotFoundException" then
          .ok (some { physicalResourceId := cluster_name ++ "-auto-mode"
                      status := "NOT_FOUND"
                      updateId := none })
        else .error (.clientError code)
    | .otherError msg => .error (.otherError msg)
  else
    .ok none

/-! ## Compute-mode branching (`_get_pod_spec`, `_get_tolerations`,
`_get_adapter_config`) -/

/-- A Kubernetes toleration entry, as written literally in the source. -/
structure Toleration where
  key : String
  operator : String
  value : String
  effect : String
deriving DecidableEq, Repr

/-- The pod-placement overlay a workload's `_get_pod_spec` returns: the
Python dict either carries both `nodeSelector` and `tolerations` keys or is
empty (`{}`, both keys absent). -/
structure PodPlacement where
  nodeSelector : Option (List (String × String))
  tolerations : Option (List Toleration)
deriving DecidableEq, Repr

/-- `SampleAppConstruct._get_pod_spec` (the OTEL, Go and Java workload
constructs carry a literally identical method): Fargate mode adds a
`nodeSelector` and a toleration, every other mode returns the empty dict.
`compute_config` is optional in the source (`None` means no hints). -/
def sample_app_get_pod_spec (compute_config : Option ComputeConfig) : PodPlacement :=
  match compute_config with
  | some cfg =>
    if cfg.mode = "fargate" then
      { nodeSelector := some [("eks.amazonaws.com/compute-type", "fargate")]
        tolerations := some [{ key := "eks.amazonaws.com/compute-type"
                               operator := "Equal"
                               value := "fargate"
                               effect := "NoSchedule" }] }
    else { nodeSelector := none, tolerations := none }
  | none => { nodeSelector := none, tolerations := none }

/-- `PrometheusAdapterConstruct._get_tolerations`. -/
def adapter_get_tolerations (compute_mode : String) : List Toleration :=
  if compute_mode = "fargate" then
    [{ key := "eks.amazonaws.com/compute-type"
       operator := "Equal"
       value := "fargate"
       effect := "NoSchedule" }]
  else
    [{ key := "eks.amazonaws.com/compute-type"
       operator := "Equal"
       value := "prometheus-adapter"
       effect := "NoSchedule" }]

/-- `PrometheusAdapterConstruct._get_auto_mode_config` — the literal YAML
string (braces and single quotes written as escapes). -/
def autoModeAdapterConfig : String :=
  "\n"
  ++ "rules:\n"
  ++ "# Java OTEL App - using http_requests_total\n"
  ++ "- seriesQuery: \x27http_requests_total\x7bapp=\"java-otel-sample-app\"\x7d\x27\n"
  ++ "  resources:\n"
  ++ "    overrides:\n"
  ++ "      kubernetes_namespace: \x7bresource: \"namespace\"\x7d\n"
  ++ "      kubernetes_pod_name: \x7bresource: \"pod\"\x7d\n"
  ++ "  name:\n"
  ++ "    as: \"java_app_requests_rate\"\n"
  ++ "  metricsQuery: \x27rate(http_requests_total\x7bapp=\"java-otel-sample-app\",<<.LabelMatchers>>\x7d[1m]) * 60\x27\n"
  ++ "\n"
  ++ "# Go OTEL App - using http_requests_total\n"
  ++ "- seriesQuery: \x27http_requests_total\x7bapp=\"go-otel-sample-app\"\x7d\x27\n"
  ++ "  resources:\n"
  ++ "    overrides:\n"
  ++ "      kubernetes_namespace: \x7bresource: \"namespace\"\x7d\n"
  ++ "      kubernetes_pod_name: \x7bresource: \"pod\"\x7d\n"
  ++ "  name:\n"
  ++ "    as: \"go_app_requests_rate\"\n"
  ++ "  metricsQuery: \x27rate(http_requests_total\x7bapp=\"go-otel-sample-app\",<<.LabelMatchers>>\x7d[1m]) * 60\x27\n"
  ++ "\n"
  ++ "# Sample Metrics App - using sample_app_requests_total\n"
  ++ "- seriesQuery: \x27sample_app_requests_total\x7bapp=\"sample-metrics-app\"\x7d\x27\n"
  ++ "  resources:\n"
  ++ "    overrides:\n"
  ++ "      kubernetes_namespace: \x7bresource: \"namespace\"\x7d\n"
  ++ "      kubernetes_pod_name: \x7bresource: \"pod\"\x7d\n"
  ++ "  name:\n"
  ++ "    as: \"sample_app_requests_rate\"\n"
  ++ "  metricsQuery: \x27rate(sample_app_requests_total\x7bapp=\"sample-metrics-app\",<<.LabelMatchers>>\x7d[1m]) * 60\x27\n"
  ++ "\n"
  ++ "# OTEL Sample App - using pod_cpu_utilization\n"
  ++ "- seriesQuery: \x27pod_cpu_utilization\x7bapp=\"otel-sample-app\"\x7d\x27\n"
  ++ "  resources:\n"
  ++ "    overrides:\n"
  ++ "      kubernetes_namespace: \x7bresource: \"namespace\"\x7d\n"
  ++ "      kubernetes_pod_name: \x7bresource: \"pod\"\x7d\n"
  ++ "  name:\n"
  ++ "    as: \"pod_cpu_utilization\"\n"
  ++ "  metricsQuery: \x27pod_cpu_utilization\x7bapp=\"otel-sample-app\",<<.LabelMatchers>>\x7d\x27\n"

/-- `PrometheusAdapterConstruct._get_fargate_config` — the literal YAML
string (braces and single quotes written as escapes). -/
def fargateAdapterConfig : String :=
  "\n"
  ++ "rules:\n"
  ++ "# Java OTEL App - Fargate (same as auto-mode, metrics don\x27t have compute_type label)\n"
  ++ "- seriesQuery: \x27http_requests_total\x7bapp=\"java-otel-sample-app\"\x7d\x27\n"
  ++ "  resources:\n"
  ++ "    overrides:\n"
  ++ "      kubernetes_namespace: \x7bresource: \"namespace\"\x7d\n"
  ++ "      kubernetes_pod_name: \x7bresource: \"pod\"\x7d\n"
  ++ "  name:\n"
  ++ "    as: \"java_app_requests_rate\"\n"
  ++ "  metricsQuery: \x27rate(http_requests_total\x7bapp=\"java-otel-sample-app\",<<.LabelMatchers>>\x7d[1m]) * 60\x27\n"
  ++ "\n"
  ++ "# Go OTEL App - Fargate\n"
  ++ "- seriesQuery: \x27http_requests_total\x7bapp=\"go-otel-sample-app\"\x7d\x27\n"
  ++ "  resources:\n"
  ++ "    overrides:\n"
  ++ "      kubernetes_namespace: \x7bresource: \"namespace\"\x7d\n"
  ++ "      kubernetes_pod_name: \x7bresource: \"pod\"\x7d\n"
  ++ "  name:\n"
  ++ "    as: \"go_app_requests_rate\"\n"
  ++ "  metricsQuery: \x27rate(http_requests_total\x7bapp=\"go-otel-sample-app\",<<.LabelMatchers>>\x7d[1m]) * 60\x27\n"
  ++ "\n"
  ++ "# Sample Metrics App - Fargate\n"
  ++ "- seriesQuery: \x27sample_app_requests_total\x7bapp=\"sample-metrics-app\"\x7d\x27\n"
  ++ "  resources:\n"
  ++ "    overrides:\n"
  ++ "      kubernetes_namespace: \x7bresource: \"namespace\"\x7d\n"
  ++ "      kubernetes_pod_name: \x7bresource: \"pod\"\x7d\n"
  ++ "  name:\n"
  ++ "    as: \"sample_app_requests_rate\"\n"
  ++ "  metricsQuery: \x27rate(sample_app_requests_total\x7bapp=\"sample-metrics-app\",<<.LabelMatchers>>\x7d[1m]) * 60\x27\n"
  ++ "\n"
  ++ "# OTEL Sample App - Fargate CPU utilization\n"
  ++ "- seriesQuery: \x27pod_cpu_utilization\x7bapp=\"otel-sample-app\"\x7d\x27\n"
  ++ "  resources:\n"
  ++ "    overrides:\n"
  ++ "      kubernetes_namespace: \x7bresource: \"namespace\"\x7d\n"
  ++ "      kubernetes_pod_name: \x7bresource: \"pod\"\x7d\n"
  ++ "  name:\n"
  ++ "    as: \"pod_cpu_utilization\"\n"
  ++ "  metricsQuery: \x27pod_cpu_utilization\x7bapp=\"otel-sample-app\",<<.LabelMatchers>>\x7d\x27\n"

/-- `PrometheusAdapterConstruct._get_adapter_config`. -/
def adapter_get_config (compute_mode : String) : String :=
  if compute_mode = "fargate" then fargateAdapterConfig else autoModeAdapterConfig

/-- The set of structural overlays compute-mode branching produces: the
per-workload pod placement hints, the adapter deployment's tolerations and
the adapter rule document. -/
structure ComputeOverlay where
  podPlacement : PodPlacement
  adapterTolerations : List Toleration
  adapterConfig : String
deriving DecidableEq, Repr

/-- Compute-mode branching as a single function of the mode string, collecting
the three branching helpers of the source. -/
def branch (compute_mode : String) : ComputeOverlay :=
  { podPlacement := sample_app_get_pod_spec (some { mode := compute_mode })
    adapterTolerations := adapter_get_tolerations compute_mode
    adapterConfig := adapter_get_config compute_mode }

/-! ## Dependency/ordering graph

Nodes are the resources the build declares; an edge `(a, b)` records that
`a` depends on `b` (`b` must be provisioned before `a`).  Edges are the
author-declared `add_dependency` calls of the source, with construct-level
dependencies expanded to the resources the construct declares, plus the
implicit edge from every cluster-attached resource to the cluster. -/

/-- The declared resources.  `fargateProfile ns` is the Fargate profile
`add_fargate_profile(f"{ns}-fargate-profile", ...)` created per entry of
`fargate_profiles` in Fargate mode; `adapterOwnNamespace` is the extra
`monitoring` Namespace manifest the adapter construct creates because
`app.py` does not pass it a `monitoring_namespace`. -/
inductive Node where
  | cluster
  | monitoringNamespace
  | openTelemetryNamespace
  | autoModeEnabler
  | corednsAddon
  | podIdentityAddon
  | vpcCniAddon
  | kubeProxyAddon
  | fargateProfile (ns : String)
  | prometheusSa
  | prometheusClusterRole
  | prometheusClusterRoleBinding
  | prometheusConfig
  | prometheusDeployment
  | prometheusService
  | adapterOwnNamespace
  | adapterSa
  | adapterRole
  | adapterBinding
  | adapterConfigMap
  | adapterDeployment
  | adapterService
  | adapterApiService
  | sampleDeployment
  | sampleService
  | sampleHpa
  | otelCollectorSa
  | otelCollectorRole
  | otelCollectorBinding
  | otelCollectorConfig
  | otelCollectorDeployment
  | otelCollectorService
  | otelAppDeployment
  | otelAppService
  | otelHpa
  | goDeployment
  | goService
  | goHpa
  | javaDeployment
  | javaService
  | javaHpa
deriving Repr

open Node

/-- Injective code of a node, used only to give `Node` a fast decidable
equality (the derived instance for a 41-constructor inductive is too slow to
evaluate inside `decide`). -/
def Node.encode : Node → Nat × String
  | cluster => (0, "")
  | monitoringNamespace => (1, "")
  | openTelemetryNamespace => (2, "")
  | autoModeEnabler => (3, "")
  | corednsAddon => (4, "")
  | podIdentityAddon => (5, "")
  | vpcCniAddon => (6, "")
  | kubeProxyAddon => (7, "")
  | fargateProfile ns => (8, ns)
  | prometheusSa => (9, "")
  | prometheusClusterRole => (10, "")
  | prometheusClusterRoleBinding => (11, "")
  | prometheusConfig => (12, "")
  | prometheusDeployment => (13, "")
  | prometheusService => (14, "")
  | adapterOwnNamespace => (15, "")
  | adapterSa => (16, "")
  | adapterRole => (17, "")
  | adapterBinding => (18, "")
  | adapterConfigMap => (19, "")
  | adapterDeployment => (20, "")
  | adapterService => (21, "")
  | adapterApiService => (22, "")
  | sampleDeployment => (23, "")
  | sampleService => (24, "")
  | sampleHpa => (25, "")
  | otelCollectorSa => (26, "")
  | otelCollectorRole => (27, "")
  | otelCollectorBinding => (28, "")
  | otelCollectorConfig => (29, "")
  | otelCollectorDeployment => (30, "")
  | otelCollectorService => (31, "")
  | otelAppDeployment => (32, "")
  | otelAppService => (33, "")
  | otelHpa => (34, "")
  | goDeployment => (35, "")
  | goService => (36, "")
  | goHpa => (37, "")
  | javaDeployment => (38, "")
  | javaService => (39, "")
  | javaHpa => (40, "")

/-- Left inverse of `Node.encode`. -/
def Node.decode : Nat × String → Node
  | (0, _) => cluster
  | (1, _) => monitoringNamespace
  | (2, _) => openTelemetryNamespace
  | (3, _) => autoModeEnabler
  | (4, _) => corednsAddon
  | (5, _) => podIdentityAddon
  | (6, _) => vpcCniAddon
  | (7, _) => kubeProxyAddon
  | (8, ns) => fargateProfile ns
  | (9, _) => prometheusSa
  | (10, _) => prometheusClusterRole
  | (11, _) => prometheusClusterRoleBinding
  | (12, _) => prometheusConfig
  | (13, _) => prometheusDeployment
  | (14, _) => prometheusService
  | (15, _) => adapterOwnNamespace
  | (16, _) => adapterSa
  | (17, _) => adapterRole
  | (18, _) => adapterBinding
  | (19, _) => adapterConfigMap
  | (20, _) => adapterDeployment
  | (21, _) => adapterService
  | (22, _) => adapterApiService
  | (23, _) => sampleDeployment
  | (24, _) => sampleService
  | (25, _) => sampleHpa
  | (26, _) => otelCollectorSa
  | (27, _) => otelCollectorRole
  | (28, _) => otelCollectorBinding
  | (29, _) => otelCollectorConfig
  | (30, _) => otelCollectorDeployment
  | (31, _) => otelCollectorService
  | (32, _) => otelAppDeployment
  | (33, _) => otelAppService
  | (34, _) => otelHpa
  | (35, _) => goDeployment
  | (36, _) => goService
  | (37, _) => goHpa
  | (38, _) => javaDeployment
  | (39, _) => javaService
  | (40, _) => javaHpa
  | _ => cluster

/-- `decode` undoes `encode`, so `encode` is injective. -/
theorem Node.decode_encode : ∀ n : Node, Node.decode n.encode = n := by
  intro n; cases n <;> rfl

instance : DecidableEq Node := fun a b =>
  decidable_of_iff (a.encode = b.encode)
    ⟨fun h => by rw [← Node.decode_encode a, h, Node.decode_encode b],
     fun h => h ▸ rfl⟩

/-- Resources declared by `PrometheusConstruct` (app.py passes it the stack's
monitoring namespace, so it declares no namespace of its own). -/
def prometheusMembers : List Node :=
  [prometheusSa, prometheusClusterRole, prometheusClusterRoleBinding,
   prometheusConfig, prometheusDeployment, prometheusService]

/-- Resources declared by `PrometheusAdapterConstruct` (app.py passes it no
monitoring namespace, so it declares its own). -/
def adapterMembers : List Node :=
  [adapterOwnNamespace, adapterSa, adapterRole, adapterBinding,
   adapterConfigMap, adapterDeployment, adapterService, adapterApiService]

/-- Resources declared by `SampleAppConstruct`. -/
def sampleAppMembers : List Node := [sampleDeployment, sampleService, sampleHpa]

/-- Resources declared by `OtelAppConstruct`. -/
def otelAppMembers : List Node :=
  [otelCollectorSa, otelCollectorRole, otelCollectorBinding, otelCollectorConfig,
   otelCollectorDeployment, otelCollectorService,
   otelAppDeployment, otelAppService, otelHpa]

/-- Resources declared by `GoOtelAppConstruct`. -/
def goAppMembers : List Node := [goDeployment, goService, goHpa]

/-- Resources declared by `JavaOtelAppConstruct`. -/
def javaAppMembers : List Node := [javaDeployment, javaService, javaHpa]

/-- Expansion of a construct-level `add_dependency`: every resource declared
by the dependent construct depends on every resource declared by the
dependency. -/
def constructDep (xs ys : List Node) : List (Node × Node) :=
  xs.flatMap fun x => ys.map fun y => (x, y)

/-- Node-level `add_dependency` edges written inside the constructs
themselves (`prometheus_construct.py`, `prometheus_adapter_construct.py`,
`sample_app_construct.py`, `otel_app_construct.py`,
`go_otel_app_construct.py`, `java_otel_app_construct.py`). -/
def constructInternalEdges : List (Node × Node) :=
  [ -- PrometheusConstruct
   (prometheusSa, monitoringNamespace),
   (prometheusClusterRoleBinding, prometheusClusterRole),
   (prometheusClusterRoleBinding, monitoringNamespace),
   (prometheusConfig, monitoringNamespace),
   (prometheusDeployment, prometheusConfig),
   (prometheusDeployment, prometheusSa),
   (prometheusDeployment, prometheusClusterRoleBinding),
   (prometheusService, prometheusDeployment),
   -- PrometheusAdapterConstruct (note: no edge for the adapter's
   -- ClusterRoleBinding on its ClusterRole)
   (adapterDeployment, adapterConfigMap),
   (adapterDeployment, adapterSa),
   (adapterService, adapterDeployment),
   (adapterApiService, adapterService),
   -- SampleAppConstruct
   (sampleService, sampleDeployment),
   (sampleHpa, sampleDeployment),
   -- OtelAppConstruct
   (otelCollectorSa, openTelemetryNamespace),
   (otelCollectorBinding, otelCollectorRole),
   (otelCollectorBinding, otelCollectorSa),
   (otelCollectorConfig, openTelemetryNamespace),
   (otelCollectorDeployment, otelCollectorConfig),
   (otelCollectorDeployment, otelCollectorBinding),
   (otelCollectorService, otelCollectorDeployment),
   (otelAppDeployment, otelCollectorService),
   (otelAppService, otelAppDeployment),
   (otelHpa, otelAppDeployment),
   -- GoOtelAppConstruct
   (goService, goDeployment),
   (goHpa, goDeployment),
   -- JavaOtelAppConstruct
   (javaService, javaDeployment),
   (javaHpa, javaDeployment)]

/-- The construct-level `add_dependency` wiring of `app.py`:
`prometheus` on the stack's monitoring namespace, `prometheus_adapter` on
`prometheus` and the monitoring namespace, every workload construct on
`prometheus_adapter`, and `otel_app` additionally on the opentelemetry
namespace. -/
def appWiringEdges : List (Node × Node) :=
  constructDep prometheusMembers [monitoringNamespace]
  ++ constructDep adapterMembers prometheusMembers
  ++ constructDep adapterMembers [monitoringNamespace]
  ++ constructDep sampleAppMembers adapterMembers
  ++ constructDep otelAppMembers [openTelemetryNamespace]
  ++ constructDep otelAppMembers adapterMembers
  ++ constructDep goAppMembers adapterMembers
  ++ constructDep javaAppMembers adapterMembers

/-- The `add_dependency` edges declared inside `EksClusterStack`: in
Auto Mode the enablement custom resource depends on the cluster and the four
add-ons depend on the enablement resource (`_enable_auto_mode`,
`_add_cluster_addons`); in Fargate mode (and for any other mode string)
neither the enabler nor those edges exist, and `_ensure_fargate_namespaces_ready`
declares the Fargate profiles with no dependency edges at all. -/
def stackModeEdges (mode : String) : List (Node × Node) :=
  if mode = "auto-mode" then
    [(autoModeEnabler, cluster),
     (corednsAddon, autoModeEnabler),
     (podIdentityAddon, autoModeEnabler),
     (vpcCniAddon, autoModeEnabler),
     (kubeProxyAddon, autoModeEnabler)]
  else []

/-- The cluster-attached resources declared in the given mode: the two stack
namespaces, the four add-ons, in Auto Mode the enablement custom resource,
in Fargate mode one Fargate profile per configured namespace, and the
resources of the platform and workload constructs. -/
def clusterAttached (mode : String) : List Node :=
  [monitoringNamespace, openTelemetryNamespace,
   corednsAddon, podIdentityAddon, vpcCniAddon, kubeProxyAddon]
  ++ (if mode = "auto-mode" then [autoModeEnabler] else [])
  ++ (if mode = "fargate" then
        (EnvironmentConfig.fargate_development "" "").eks.compute.fargate_profiles.map
          fargateProfile
      else [])
  ++ prometheusMembers ++ adapterMembers
  ++ sampleAppMembers ++ otelAppMembers ++ goAppMembers ++ javaAppMembers

/-- The implicit edges the provisioning engine infers: every cluster-attached
resource references the cluster, so the cluster is its predecessor. -/
def implicitClusterEdges (mode : String) : List (Node × Node) :=
  (clusterAttached mode).map fun n => (n, cluster)

/-- The constructed dependency graph for a compute-mode string. -/
def dependencyEdges (mode : String) : List (Node × Node) :=
  stackModeEdges mode ++ constructInternalEdges ++ appWiringEdges
  ++ implicitClusterEdges mode

/-- `b` is a direct dependency predecessor of `a`. -/
def Edge (es : List (Node × Node)) (a b : Node) : Prop := (a, b) ∈ es

/-- `Reaches es a b`: `b` is a (reflexive-transitive) dependency predecessor
of `a` — there is a dependency path from `a` back to `b`. -/
def Reaches (es : List (Node × Node)) : Node → Node → Prop :=
  Relation.ReflTransGen (Edge es)

/-- A single declared edge is a dependency path. -/
theorem reaches_of_edge {es : List (Node × Node)} {a b : Node}
    (h : Edge es a b) : Reaches es a b :=
  Relation.ReflTransGen.single h

/-- `s` is closed under the edges: following any edge from a node of `s`
stays in `s`. -/
def closedUnder (es : List (Node × Node)) (s : List Node) : Bool :=
  es.all fun e => decide (e.1 ∈ s → e.2 ∈ s)

/-- Every node dependency-reachable from a node of a closed set lies in the
set. -/
theorem mem_of_reaches {es : List (Node × Node)} {s : List Node}
    (hcl : closedUnder es s = true) {x y : Node} (hx : x ∈ s)
    (h : Reaches es x y) : y ∈ s := by
  induction h with
  | refl => exact hx
  | tail _ hbc ih =>
      exact of_decide_eq_true (List.all_eq_true.mp hcl _ hbc) ih

/-- Separation by a closed set refutes reachability. -/
theorem not_reaches_of_closed (es : List (Node × Node)) (s : List Node)
    (x y : Node) (hcl : closedUnder es s = true) (hx : x ∈ s)
    (hy : ¬ y ∈ s) : ¬ Reaches es x y :=
  fun h => hy (mem_of_reaches hcl hx h)

instance (es : List (Node × Node)) (a b : Node) : Decidable (Edge es a b) :=
  inferInstanceAs (Decidable ((a, b) ∈ es))

/-- The Namespace resource (if any) the build declares for a namespace name:
`monitoring` and `opentelemetry` are declared by `_create_namespaces`;
`default` and `kube-system` are cluster built-ins with no declared
resource. -/
def namespaceResource (ns : String) : Option Node :=
  if ns = "monitoring" then some monitoringNamespace
  else if ns = "opentelemetry" then some openTelemetryNamespace
  else none

/-- The dependency predecessors of the workload Deployments and
HorizontalPodAutoscalers, closed under the graph's edges.  It contains no
workload Service, no Auto Mode enablement resource and no add-on, which
separates those resources from the workload resources. -/
def workloadClosure : List Node :=
  [sampleDeployment, sampleHpa, goDeployment, goHpa, javaDeployment, javaHpa,
   otelAppDeployment, otelHpa, otelCollectorService, otelCollectorDeployment,
   otelCollectorConfig, otelCollectorBinding, otelCollectorRole, otelCollectorSa,
   openTelemetryNamespace]
  ++ adapterMembers ++ prometheusMembers ++ [monitoringNamespace, cluster]

/-- The dependency predecessors of the adapter's ClusterRoleBinding, closed
under the graph's edges; the adapter's ClusterRole is not among them. -/
def adapterBindingClosure : List Node :=
  adapterBinding :: prometheusMembers ++ [monitoringNamespace, cluster]

theorem workloadClosure_closed_auto :
    closedUnder (dependencyEdges "auto-mode") workloadClosure = true := by decide

theorem workloadClosure_closed_fargate :
    closedUnder (dependencyEdges "fargate") workloadClosure = true := by decide

theorem adapterBindingClosure_closed_auto :
    closedUnder (dependencyEdges "auto-mode") adapterBindingClosure = true := by decide

theorem adapterBindingClosure_closed_fargate :
    closedUnder (dependencyEdges "fargate") adapterBindingClosure = true := by decide

/-! ## Claims -/

/-- Claim C1: the mode selector `"fargate"` resolves to the Fargate profile
with `fargate_profiles = ["default", "monitoring", "opentelemetry",
"kube-system"]` and `auto_mode_enabled = False`, and every other selector
string resolves, without error, to the Auto Mode profile with
`mode = "auto-mode"` and `auto_mode_enabled = True`. -/
theorem C1_mode_selector_config (account region : String) :
    ((select_environment_config "fargate" account region).eks.compute.fargate_profiles
        = ["default", "monitoring", "opentelemetry", "kube-system"]
      ∧ (select_environment_config "fargate" account region).eks.compute.auto_mode_enabled
        = false)
    ∧ ∀ selector : String, selector ≠ "fargate" →
        (select_environment_config selector account region).eks.compute.mode = "auto-mode"
        ∧ (select_environment_config selector account region).eks.compute.auto_mode_enabled
          = true := by
  refine ⟨⟨rfl, rfl⟩, ?_⟩
  intro selector h
  unfold select_environment_config
  rw [if_neg h]
  exact ⟨rfl, rfl⟩

/-- Claim C1 witness: the theorem applied at the unrecognized selector
`"auto"` and concrete account/region. -/
theorem C1_mode_selector_config_witness :
    (select_environment_config "auto" "111111111111" "us-east-1").eks.compute.mode
      = "auto-mode"
    ∧ (select_environment_config "auto" "111111111111" "us-east-1").eks.compute.auto_mode_enabled
      = true :=
  (C1_mode_selector_config "111111111111" "us-east-1").2 "auto" (by decide)

/-- Claim C2: the compute-enablement callback turns a
`ResourceNotFoundException` on a Delete request into a success payload with
status `NOT_FOUND`, and re-raises every other provider error on Delete and
every provider error on Create/Update unchanged. -/
theorem C2_error_handling (cluster_name code msg : String) :
    on_event "Delete" cluster_name (.clientError "ResourceNotFoundException")
      = .ok (some { physicalResourceId := cluster_name ++ "-auto-mode"
                    status := "NOT_FOUND"
                    updateId := none })
    ∧ (code ≠ "ResourceNotFoundException" →
        on_event "Delete" cluster_name (.clientError code) = .error (.clientError code))
    ∧ on_event "Delete" cluster_name (.otherError msg) = .error (.otherError msg)
    ∧ on_event "Create" cluster_name (.clientError code) = .error (.clientError code)
    ∧ on_event "Create" cluster_name (.otherError msg) = .error (.otherError msg)
    ∧ on_event "Update" cluster_name (.clientError code) = .error (.clientError code)
    ∧ on_event "Update" cluster_name (.otherError msg) = .error (.otherError msg) := by
  refine ⟨rfl, fun h => ?_, rfl, rfl, rfl, rfl, rfl⟩
  have hstep : on_event "Delete" cluster_name (.clientError code)
      = (if code = "ResourceNotFoundException" then
           Except.ok (some { physicalResourceId := cluster_name ++ "-auto-mode"
                             status := "NOT_FOUND"
                             updateId := none })
         else .error (.clientError code)) := rfl
  rw [hstep, if_neg h]

/-- Claim C2 witness: the theorem applied at a concrete cluster name, a
concrete non-not-found error code and a concrete message. -/
theorem C2_error_handling_witness :
    on_event "Delete" "demo" (.clientError "AccessDeniedException")
      = .error (.clientError "AccessDeniedException") :=
  (C2_error_handling "demo" "AccessDeniedException" "boom").2.1 (by decide)

/-- Claim C7: every returned success payload of the compute-enablement
callback — Create, Update, Delete and the delete-not-found case alike —
carries the same stable physical identifier `<cluster_name>-auto-mode`. -/
theorem C7_stable_physical_id (request_type cluster_name : String)
    (api : EksApiResult) (p : CallbackPayload)
    (h : on_event request_type cluster_name api = .ok (some p)) :
    p.physicalResourceId = cluster_name ++ "-auto-mode" := by
  unfold on_event at h
  by_cases hcu : request_type = "Create" ∨ request_type = "Update"
  · rw [if_pos hcu] at h
    cases api with
    | ok uid =>
        simp only [Except.ok.injEq, Option.some.injEq] at h
        subst h; rfl
    | clientError code => simp at h
    | otherError m => simp at h
  · rw [if_neg hcu] at h
    by_cases hd : request_type = "Delete"
    · rw [if_pos hd] at h
      cases api with
      | ok uid =>
          simp only [Except.ok.injEq, Option.some.injEq] at h
          subst h; rfl
      | clientError code =>
          have h2 : (if code = "ResourceNotFoundException" then
              Except.ok (some { physicalResourceId := cluster_name ++ "-auto-mode"
                                status := "NOT_FOUND"
                                updateId := none })
            else Except.error (RaisedError.clientError code))
              = Except.ok (some p) := h
          by_cases hc : code = "ResourceNotFoundException"
          · rw [if_pos hc] at h2
            simp only [Except.ok.injEq, Option.some.injEq] at h2
            subst h2; rfl
          · rw [if_neg hc] at h2
            simp at h2
      | otherError m => simp at h
    · rw [if_neg hd] at h
      simp at h

/-- Claim C7 witness: the theorem applied to a concrete Delete call whose
provider reports the cluster missing. -/
theorem C7_stable_physical_id_witness :
    ({ physicalResourceId := "demo" ++ "-auto-mode"
       status := "NOT_FOUND"
       updateId := none } : CallbackPayload).physicalResourceId
      = "demo" ++ "-auto-mode" :=
  C7_stable_physical_id "Delete" "demo" (.clientError "ResourceNotFoundException") _ rfl

/-- Claim C10: for a request type that is none of Create, Update or Delete,
the callback returns Python `None` — no payload and no raised error. -/
theorem C10_unrecognized_request_returns_none (request_type cluster_name : String)
    (api : EksApiResult) (h1 : request_type ≠ "Create")
    (h2 : request_type ≠ "Update") (h3 : request_type ≠ "Delete") :
    on_event request_type cluster_name api = .ok none := by
  unfold on_event
  rw [if_neg (not_or.mpr ⟨h1, h2⟩), if_neg h3]

/-- Claim C10 witness: the theorem applied to a concrete `Read` request. -/
theorem C10_unrecognized_request_returns_none_witness :
    on_event "Read" "demo" (.ok "u") = .ok none :=
  C10_unrecognized_request_returns_none "Read" "demo" (.ok "u")
    (by decide) (by decide) (by decide)

/-- Claim C3: in both compute modes, the Prometheus Adapter Deployment and
APIService are dependency predecessors of each of the four workload
HorizontalPodAutoscalers, and the adapter is a successor of the core
Prometheus deployment. -/
theorem C3_adapter_between_prometheus_and_hpas :
    ∀ mode ∈ ["auto-mode", "fargate"],
      (Reaches (dependencyEdges mode) sampleHpa adapterDeployment
        ∧ Reaches (dependencyEdges mode) sampleHpa adapterApiService)
      ∧ (Reaches (dependencyEdges mode) otelHpa adapterDeployment
        ∧ Reaches (dependencyEdges mode) otelHpa adapterApiService)
      ∧ (Reaches (dependencyEdges mode) goHpa adapterDeployment
        ∧ Reaches (dependencyEdges mode) goHpa adapterApiService)
      ∧ (Reaches (dependencyEdges mode) javaHpa adapterDeployment
        ∧ Reaches (dependencyEdges mode) javaHpa adapterApiService)
      ∧ Reaches (dependencyEdges mode) adapterDeployment prometheusDeployment
      ∧ Reaches (dependencyEdges mode) adapterApiService prometheusDeployment := by
  intro mode hm
  simp only [List.mem_cons, List.mem_singleton, List.not_mem_nil, or_false] at hm
  rcases hm with rfl | rfl <;>
    exact ⟨⟨reaches_of_edge (by decide), reaches_of_edge (by decide)⟩,
      ⟨reaches_of_edge (by decide), reaches_of_edge (by decide)⟩,
      ⟨reaches_of_edge (by decide), reaches_of_edge (by decide)⟩,
      ⟨reaches_of_edge (by decide), reaches_of_edge (by decide)⟩,
      reaches_of_edge (by decide), reaches_of_edge (by decide)⟩

/-- Claim C3 witness: the theorem applied at the Auto Mode graph. -/
theorem C3_adapter_between_prometheus_and_hpas_witness :
    Reaches (dependencyEdges "auto-mode") sampleHpa adapterDeployment :=
  (C3_adapter_between_prometheus_and_hpas "auto-mode" (by decide)).1.1

/-- Claim C4 counterexample: the sample app's HorizontalPodAutoscaler has no
dependency path back to the sample app's Service (its declared dependency is
the Deployment), so the claimed Service-before-HPA ordering does not hold. -/
theorem C4_no_service_before_hpa :
    ¬ Reaches (dependencyEdges "auto-mode") sampleHpa sampleService :=
  not_reaches_of_closed _ workloadClosure _ _ workloadClosure_closed_auto
    (by decide) (by decide)

/-- Claim C4 (amended): within each workload and in both compute modes, the
Deployment is ordered before the Service and before the
HorizontalPodAutoscaler — the HPA depends directly on the Deployment — but
there is no Service-before-HPA ordering. -/
theorem C4_workload_internal_ordering :
    ∀ mode ∈ ["auto-mode", "fargate"],
      (Reaches (dependencyEdges mode) sampleService sampleDeployment
        ∧ Reaches (dependencyEdges mode) sampleHpa sampleDeployment
        ∧ ¬ Reaches (dependencyEdges mode) sampleHpa sampleService)
      ∧ (Reaches (dependencyEdges mode) otelAppService otelAppDeployment
        ∧ Reaches (dependencyEdges mode) otelHpa otelAppDeployment
        ∧ ¬ Reaches (dependencyEdges mode) otelHpa otelAppService)
      ∧ (Reaches (dependencyEdges mode) goService goDeployment
        ∧ Reaches (dependencyEdges mode) goHpa goDeployment
        ∧ ¬ Reaches (dependencyEdges mode) goHpa goService)
      ∧ (Reaches (dependencyEdges mode) javaService javaDeployment
        ∧ Reaches (dependencyEdges mode) javaHpa javaDeployment
        ∧ ¬ Reaches (dependencyEdges mode) javaHpa javaService) := by
  intro mode hm
  simp only [List.mem_cons, List.mem_singleton, List.not_mem_nil, or_false] at hm
  rcases hm with rfl | rfl
  · exact ⟨⟨reaches_of_edge (by decide), reaches_of_edge (by decide),
        not_reaches_of_closed _ workloadClosure _ _ workloadClosure_closed_auto
          (by decide) (by decide)⟩,
      ⟨reaches_of_edge (by decide), reaches_of_edge (by decide),
        not_reaches_of_closed _ workloadClosure _ _ workloadClosure_closed_auto
          (by decide) (by decide)⟩,
      ⟨reaches_of_edge (by decide), reaches_of_edge (by decide),
        not_reaches_of_closed _ workloadClosure _ _ workloadClosure_closed_auto
          (by decide) (by decide)⟩,
      ⟨reaches_of_edge (by decide), reaches_of_edge (by decide),
        not_reaches_of_closed _ workloadClosure _ _ workloadClosure_closed_auto
          (by decide) (by decide)⟩⟩
  · exact ⟨⟨reaches_of_edge (by decide), reaches_of_edge (by decide),
        not_reaches_of_closed _ workloadClosure _ _ workloadClosure_closed_fargate
          (by decide) (by decide)⟩,
      ⟨reaches_of_edge (by decide), reaches_of_edge (by decide),
        not_reaches_of_closed _ workloadClosure _ _ workloadClosure_closed_fargate
          (by decide) (by decide)⟩,
      ⟨reaches_of_edge (by decide), reaches_of_edge (by decide),
        not_reaches_of_closed _ workloadClosure _ _ workloadClosure_closed_fargate
          (by decide) (by decide)⟩,
      ⟨reaches_of_edge (by decide), reaches_of_edge (by decide),
        not_reaches_of_closed _ workloadClosure _ _ workloadClosure_closed_fargate
          (by decide) (by decide)⟩⟩

/-- Claim C4 witness: the amended theorem applied at the Auto Mode graph. -/
theorem C4_workload_internal_ordering_witness :
    Reaches (dependencyEdges "auto-mode") sampleService sampleDeployment :=
  (C4_workload_internal_ordering "auto-mode" (by decide)).1.1

/-- Claim C5 counterexample: the Prometheus Adapter's ClusterRoleBinding has
no dependency path (in particular no edge) back to the ClusterRole it
references. -/
theorem C5_adapter_binding_missing_edge :
    ¬ Reaches (dependencyEdges "auto-mode") adapterBinding adapterRole :=
  not_reaches_of_closed _ adapterBindingClosure _ _ adapterBindingClosure_closed_auto
    (by decide) (by decide)

/-- Claim C5 (amended): the Prometheus and OTEL collector ClusterRoleBindings
each carry a dependency edge on the ClusterRole they reference, in both
compute modes; the Prometheus Adapter ClusterRoleBinding is declared without
such an edge (and without any dependency path to its ClusterRole). -/
theorem C5_clusterrole_before_binding :
    ∀ mode ∈ ["auto-mode", "fargate"],
      Edge (dependencyEdges mode) prometheusClusterRoleBinding prometheusClusterRole
      ∧ Edge (dependencyEdges mode) otelCollectorBinding otelCollectorRole
      ∧ ¬ Reaches (dependencyEdges mode) adapterBinding adapterRole := by
  intro mode hm
  simp only [List.mem_cons, List.mem_singleton, List.not_mem_nil, or_false] at hm
  rcases hm with rfl | rfl
  · exact ⟨by decide, by decide,
      not_reaches_of_closed _ adapterBindingClosure _ _
        adapterBindingClosure_closed_auto (by decide) (by decide)⟩
  · exact ⟨by decide, by decide,
      not_reaches_of_closed _ adapterBindingClosure _ _
        adapterBindingClosure_closed_fargate (by decide) (by decide)⟩

/-- Claim C5 witness: the amended theorem applied at the Auto Mode graph. -/
theorem C5_clusterrole_before_binding_witness :
    Edge (dependencyEdges "auto-mode") prometheusClusterRoleBinding prometheusClusterRole :=
  (C5_clusterrole_before_binding "auto-mode" (by decide)).1

/-- Claim C6 counterexample: the sample app's Deployment — a workload
resource — has no dependency path back to the Auto Mode enablement custom
resource, so the graph does not order workload scheduling after compute
enablement. -/
theorem C6_workloads_not_after_enabler :
    ¬ Reaches (dependencyEdges "auto-mode") sampleDeployment autoModeEnabler :=
  not_reaches_of_closed _ workloadClosure _ _ workloadClosure_closed_auto
    (by decide) (by decide)

/-- Claim C6 (amended): in Auto Mode the compute-enablement custom resource
is a direct dependency predecessor of each of the four cluster add-ons and a
direct successor of the cluster resource, but no workload Deployment or
HorizontalPodAutoscaler has a dependency path back to it — ordering workload
scheduling after enablement is left to runtime, not to the graph. -/
theorem C6_enabler_ordering :
    (Edge (dependencyEdges "auto-mode") corednsAddon autoModeEnabler
      ∧ Edge (dependencyEdges "auto-mode") podIdentityAddon autoModeEnabler
      ∧ Edge (dependencyEdges "auto-mode") vpcCniAddon autoModeEnabler
      ∧ Edge (dependencyEdges "auto-mode") kubeProxyAddon autoModeEnabler)
    ∧ Edge (dependencyEdges "auto-mode") autoModeEnabler cluster
    ∧ (¬ Reaches (dependencyEdges "auto-mode") otelAppDeployment autoModeEnabler
      ∧ ¬ Reaches (dependencyEdges "auto-mode") goDeployment autoModeEnabler
      ∧ ¬ Reaches (dependencyEdges "auto-mode") javaDeployment autoModeEnabler
      ∧ ¬ Reaches (dependencyEdges "auto-mode") sampleHpa autoModeEnabler
      ∧ ¬ Reaches (dependencyEdges "auto-mode") otelHpa autoModeEnabler
      ∧ ¬ Reaches (dependencyEdges "auto-mode") goHpa autoModeEnabler
      ∧ ¬ Reaches (dependencyEdges "auto-mode") javaHpa autoModeEnabler) :=
  ⟨⟨by decide, by decide, by decide, by decide⟩, by decide,
    not_reaches_of_closed _ workloadClosure _ _ workloadClosure_closed_auto
      (by decide) (by decide),
    not_reaches_of_closed _ workloadClosure _ _ workloadClosure_closed_auto
      (by decide) (by decide),
    not_reaches_of_closed _ workloadClosure _ _ workloadClosure_closed_auto
      (by decide) (by decide),
    not_reaches_of_closed _ workloadClosure _ _ workloadClosure_closed_auto
      (by decide) (by decide),
    not_reaches_of_closed _ workloadClosure _ _ workloadClosure_closed_auto
      (by decide) (by decide),
    not_reaches_of_closed _ workloadClosure _ _ workloadClosure_closed_auto
      (by decide) (by decide),
    not_reaches_of_closed _ workloadClosure _ _ workloadClosure_closed_auto
      (by decide) (by decide)⟩

/-- Claim C8: compute-mode branching is a pure function whose Auto Mode and
Fargate branches differ in the pod-placement and adapter-rule dimensions
(and in the adapter tolerations); Auto Mode pods get no `nodeSelector` or
`tolerations` hints, Fargate pods get both. -/
theorem C8_branching_pure_and_distinct :
    (∀ mode : String, branch mode = branch mode)
    ∧ branch "auto-mode" ≠ branch "fargate"
    ∧ (branch "auto-mode").podPlacement ≠ (branch "fargate").podPlacement
    ∧ (branch "auto-mode").adapterConfig ≠ (branch "fargate").adapterConfig
    ∧ (branch "auto-mode").adapterTolerations ≠ (branch "fargate").adapterTolerations
    ∧ (branch "auto-mode").podPlacement.nodeSelector = none
    ∧ (branch "auto-mode").podPlacement.tolerations = none
    ∧ (branch "fargate").podPlacement.nodeSelector
        = some [("eks.amazonaws.com/compute-type", "fargate")]
    ∧ (branch "fargate").podPlacement.tolerations
        = some [{ key := "eks.amazonaws.com/compute-type"
                  operator := "Equal"
                  value := "fargate"
                  effect := "NoSchedule" }] :=
  ⟨fun _ => rfl, by decide, by decide, by decide, by decide,
    rfl, rfl, rfl, rfl⟩

/-- Claim C9: in Fargate mode, every namespace in the configured
`fargate_profiles` list has its Fargate profile declared without any
dependency edge — direct or transitive — on the corresponding Namespace
resource. -/
theorem C9_fargate_profiles_without_namespace_edges (account region : String) :
    ∀ ns ∈ (EnvironmentConfig.fargate_development account region).eks.compute.fargate_profiles,
      ∀ m : Node, namespaceResource ns = some m →
        ¬ Edge (dependencyEdges "fargate") (fargateProfile ns) m
        ∧ ¬ Reaches (dependencyEdges "fargate") (fargateProfile ns) m := by
  intro ns hns m hm
  have hns2 : ns ∈ ["default", "monitoring", "opentelemetry", "kube-system"] := hns
  simp only [List.mem_cons, List.mem_singleton, List.not_mem_nil, or_false] at hns2
  rcases hns2 with rfl | rfl | rfl | rfl
  · simp [namespaceResource] at hm
  · have hm2 : m = monitoringNamespace := by
      simpa [namespaceResource] using hm.symm
    subst hm2
    exact ⟨by decide,
      not_reaches_of_closed _ [fargateProfile "monitoring", cluster] _ _
        (by decide) (by decide) (by decide)⟩
  · have hm2 : m = openTelemetryNamespace := by
      simpa [namespaceResource] using hm.symm
    subst hm2
    exact ⟨by decide,
      not_reaches_of_closed _ [fargateProfile "opentelemetry", cluster] _ _
        (by decide) (by decide) (by decide)⟩
  · simp [namespaceResource] at hm

/-- Claim C9 witness: the theorem applied at the `monitoring` profile and its
Namespace resource. -/
theorem C9_fargate_profiles_without_namespace_edges_witness :
    ¬ Edge (dependencyEdges "fargate") (fargateProfile "monitoring") monitoringNamespace
    ∧ ¬ Reaches (dependencyEdges "fargate") (fargateProfile "monitoring")
        monitoringNamespace :=
  C9_fargate_profiles_without_namespace_edges "111111111111" "us-east-1"
    "monitoring" (by decide) monitoringNamespace rfl

end EksObservability
